import Mathlib

/-!
Verification of the MockHsm object store of yubihsm.rs
(src/mockhsm/object/objects.rs): data model, lifecycle operations and the
wrap/unwrap secure-transfer protocol, shallowly embedded in Lean.

Conventions of the embedding:
* Rust methods taking `&mut self` become functions `Objects → ... → result × Objects`
  returning the store after the call.
* A Rust `Result::Err` produced via `bail!` becomes `MRes.err msg`; a Rust
  process abort (a failed `assert!` or a `.unwrap()` on `None`/`Err`) becomes
  `MRes.panic`.  When a panic fires after a map mutation, the returned store is
  the mutated one (the process aborts, so this component is never observed).
* The `BTreeMap` is modelled as an association list with unique keys in every
  reachable store; `insert` replaces the binding of an existing key and returns
  the previous value, as `BTreeMap::insert` does.
* Machine integers (object ids are `u16`, lengths `u16`, bytes `u8`) are
  modelled as `Nat`; no store operation performs arithmetic on them, so
  overflow never matters.
* The external serialization codec and the AEAD primitive (the `ring` crate)
  are modelled symbolically from their contracts in the specification (section
  6): the codec is a deterministic injective encoding, and sealing produces a
  value that opens exactly under the same key bytes and nonce.
-/

namespace MockHsm

/-- Object identifier, `u16` in the source (`ObjectId`). -/
abbrev ObjectId := Nat

/-- Human-readable object label (`ObjectLabel`, a fixed-width byte string in the
source, modelled as a Lean string). -/
abbrev ObjectLabel := String

/-- Modelled from the spec: the object-type enumeration (section 3, the handle
is `(object_id, object_type)`). The enumeration itself lives outside src/; the
variants are the object families the spec names.  The Opaque variant is named
OpaqueObj here. -/
inductive ObjectType
  | OpaqueObj
  | AuthenticationKey
  | AsymmetricKey
  | WrapKey
  | HmacKey
deriving DecidableEq

/-- Modelled from the spec: provenance tag (section 3, ObjectOrigin). -/
inductive ObjectOrigin
  | Generated
  | Imported
  | WrappedGenerated
  | WrappedImported
deriving DecidableEq

/-- Modelled from the spec: wrap-key algorithm identifiers.  The source file
matches on the 128-bit and 256-bit CCM identifiers and treats everything else
as unsupported; the real enumeration also carries a 192-bit identifier. -/
inductive WrapAlg
  | AES128_CCM
  | AES192_CCM
  | AES256_CCM
deriving DecidableEq

/-- Modelled from the spec: authentication-key algorithm identifier. -/
inductive AuthenticationAlg
  | YUBICO_AES
deriving DecidableEq

/-- Modelled from the spec: the algorithm tag, polymorphic over algorithm
families (section 3).  Only the families the store operations inspect are
distinguished; OpaqueAlg stands for the data-blob family. -/
inductive Algorithm
  | Auth (alg : AuthenticationAlg)
  | Wrap (alg : WrapAlg)
  | OpaqueAlg
deriving DecidableEq

/-- Modelled from the spec: `Algorithm::wrap`, the partial projection of an
algorithm tag to its wrap-family identifier (used by the source as
`wrap_key.algorithm().wrap()`). -/
def Algorithm.wrap : Algorithm → Option WrapAlg
  | .Wrap w => some w
  | _ => none

/-- Modelled from the spec: Capability is a fixed-width bit-set with named flag
constants and a contains (subset) test (sections 3 and 9). -/
structure Capability where
  bits : Nat
deriving DecidableEq

/-- The full capability bit-set (`Capability::all()`); it includes every named
flag, in particular the export-under-wrap bit. -/
def Capability.all : Capability := ⟨2 ^ 47 - 1⟩

/-- The export-under-wrap permission bit (`Capability::EXPORTABLE_UNDER_WRAP`,
bit 16 in the device capability register). -/
def Capability.EXPORTABLE_UNDER_WRAP : Capability := ⟨2 ^ 16⟩

/-- Bit-set subset test, as the bitflags `contains`: every bit of `c` is set
in `self`. -/
def Capability.contains (self c : Capability) : Bool :=
  self.bits &&& c.bits == c.bits

/-- Modelled from the spec: Domain is a 16-bit partition bit-set (section 3). -/
structure Domain where
  bits : Nat
deriving DecidableEq

/-- The full domain bit-set (`Domain::all()`). -/
def Domain.all : Domain := ⟨2 ^ 16 - 1⟩

/-- Modelled from the spec: the fixed well-known id of the factory-default
authentication key (`DEFAULT_AUTHENTICATION_KEY_ID`, value 1 on the device). -/
def DEFAULT_AUTHENTICATION_KEY_ID : ObjectId := 1

/-- Modelled from the spec: byte length of an authentication key
(`AUTHENTICATION_KEY_SIZE`, two 16-byte halves). -/
def AUTHENTICATION_KEY_SIZE : Nat := 32

/-- Modelled from the spec: label of the factory-default authentication key
(`DEFAULT_AUTHENTICATION_KEY_LABEL`). -/
def DEFAULT_AUTHENTICATION_KEY_LABEL : ObjectLabel := "DEFAULT AUTHKEY CHANGE THIS ASAP"

/-- Size in bytes of the MAC/tag appended to wrapped data
(`WRAPPED_DATA_MAC_SIZE`, the GCM tag length). -/
def WRAPPED_DATA_MAC_SIZE : Nat := 16

/-- Object metadata record (`ObjectInfo`). -/
structure ObjectInfo where
  object_id : ObjectId
  object_type : ObjectType
  algorithm : Algorithm
  capabilities : Capability
  delegated_capabilities : Capability
  domains : Domain
  length : Nat
  sequence : Nat
  origin : ObjectOrigin
  label : ObjectLabel
deriving DecidableEq

/-- The composite store key (`ObjectHandle`): object id plus object type. -/
structure ObjectHandle where
  object_id : ObjectId
  object_type : ObjectType
deriving DecidableEq

/-- `ObjectHandle::new`. -/
def ObjectHandle.new (object_id : ObjectId) (object_type : ObjectType) : ObjectHandle :=
  ⟨object_id, object_type⟩

/-- Modelled from the spec: number of key-material bytes an algorithm calls
for (section 3, Payload knows its expected byte length; 128/192/256-bit wrap
keys, 32-byte authentication keys). -/
def Algorithm.keyLen : Algorithm → Nat
  | .Auth _ => AUTHENTICATION_KEY_SIZE
  | .Wrap .AES128_CCM => 16
  | .Wrap .AES192_CCM => 24
  | .Wrap .AES256_CCM => 32
  | .OpaqueAlg => 0

/-- Modelled from the spec: Payload, the tagged container of the raw
key/data bytes, aware of its algorithm (section 3).  The source is a closed
union with one variant per family; the model keeps the algorithm tag and the
raw bytes, which is all the store operations observe (`as_ref`, `len`,
`algorithm`). -/
structure Payload where
  algorithm : Algorithm
  data : List Nat
deriving DecidableEq

/-- Modelled from the spec: `Payload::generate` builds algorithm-appropriate
key material of the correct length (section 3); the mock draws random bytes,
modelled here as zero bytes of the key length of the algorithm (no claim depends on
the values, only on the length and on byte identity through wrap/unwrap). -/
def Payload.generate (algorithm : Algorithm) : Payload :=
  ⟨algorithm, List.replicate algorithm.keyLen 0⟩

/-- Modelled from the spec: `Payload::new` builds a payload from
caller-supplied bytes for the given algorithm (section 3). -/
def Payload.new (algorithm : Algorithm) (data : List Nat) : Payload :=
  ⟨algorithm, data⟩

/-- `Payload::len`: the byte length of the raw material. -/
def Payload.len (p : Payload) : Nat := p.data.length

/-- The unit of storage (`Object`): metadata plus payload. -/
structure Object where
  object_info : ObjectInfo
  payload : Payload
deriving DecidableEq

/-- `Object::algorithm`, the algorithm tag of the object.  Info and payload
carry the same tag in every object the store constructs. -/
def Object.algorithm (o : Object) : Algorithm := o.object_info.algorithm

/-- The transient plaintext envelope (`WrappedObject`): metadata plus raw
payload bytes. -/
structure WrappedObject where
  object_info : ObjectInfo
  data : List Nat
deriving DecidableEq

/-- Modelled from the spec: a plaintext byte buffer as seen by the structured
record codec (section 6).  The codec is deterministic and injective, so
buffers are modelled symbolically: a buffer is either the encoding of a
WrappedObject or raw bytes that are not such an encoding. -/
inductive Buf
  | encoded (w : WrappedObject)
  | raw (bs : List Nat)
deriving DecidableEq

/-- Modelled from the spec: `serialize` of the structured-record codec
(section 6, deterministic, round-trips the record).  Infallible on
WrappedObject values (the source calls it with `.unwrap()`, which never fires
on a well-formed record). -/
def serialize (w : WrappedObject) : Buf := .encoded w

/-- Modelled from the spec: `deserialize` of the structured-record codec
(section 6); fails on buffers that are not the encoding of a WrappedObject. -/
def deserialize : Buf → Option WrappedObject
  | .encoded w => some w
  | .raw _ => none

/-- Modelled from the spec: ciphertext produced by the AEAD primitive
(section 6).  Sealing is modelled symbolically as a constructor recording the
key bytes, the 12-byte nonce and the plaintext buffer; `garbage` stands for
any byte string that is not a seal of the wrap key family.  The tag bytes and
the in-place buffer arithmetic (the WRAPPED_DATA_MAC_SIZE padding appended
before sealing and stripped after opening) are absorbed into the symbolic
value. -/
inductive Ciphertext
  | sealed (keyBytes : List Nat) (nonce : List Nat) (plaintext : Buf)
  | garbage (bs : List Nat)
deriving DecidableEq

/-- Modelled from the spec: AEAD key construction (`SealingKey::new` /
`OpeningKey::new`), which fails unless the raw key bytes have exactly the
length the cipher calls for (16 for AES-128-GCM, 32 for AES-256-GCM). -/
def mkAeadKey (keyLen : Nat) (bytes : List Nat) : Option (List Nat) :=
  if bytes.length = keyLen then some bytes else none

/-- Modelled from the spec: `aead::seal_in_place` (section 6) — seals the
buffer under the key and 12-byte nonce with empty associated data, appending
the authentication tag. -/
def sealInPlace (key : List Nat) (nonce : List Nat) (buf : Buf) : Ciphertext :=
  .sealed key nonce buf

/-- Modelled from the spec: `aead::open_in_place` (section 6) — verifies and
strips the tag, recovering the plaintext exactly when the ciphertext was
sealed under the same key bytes and the same nonce, and failing otherwise
(tamper, wrong key or wrong nonce). -/
def openInPlace (key : List Nat) (nonce : List Nat) : Ciphertext → Option Buf
  | .sealed k n p => if k = key ∧ n = nonce then some p else none
  | .garbage _ => none

/-- Modelled from the spec: the 13-byte nonce value a caller supplies
(`WrapNonce`); the store uses its first 12 bytes. -/
structure WrapNonce where
  bytes : List Nat
deriving DecidableEq

/-- Result of a store operation: a normal return value, a recoverable error
(`bail!`), or a process abort (failed `assert!` or `.unwrap()`). -/
inductive MRes (α : Type)
  | ok (a : α)
  | err (msg : String)
  | panic
deriving DecidableEq

/-- The object store (`Objects`), a map from handle to object.  The `BTreeMap`
is modelled as an association list; keys are unique in every reachable
store. -/
abbrev Objects := List (ObjectHandle × Object)

/-- Map lookup (`BTreeMap::get`): the value bound to the first occurrence of
the key. -/
def storeGet : Objects → ObjectHandle → Option Object
  | [], _ => none
  | (k, v) :: rest, h => if k = h then some v else storeGet rest h

/-- Map insertion (`BTreeMap::insert`): binds the key to the value, returning
the previously bound value if the key was present (in which case the old
binding is replaced). -/
def storeInsert : Objects → ObjectHandle → Object → Option Object × Objects
  | [], h, o => (none, [(h, o)])
  | (k, v) :: rest, h, o =>
    if k = h then (some v, (h, o) :: rest)
    else
      let r := storeInsert rest h o
      (r.1, (k, v) :: r.2)

/-- Map removal (`BTreeMap::remove`): deletes the binding of the key if
present and returns the removed value. -/
def storeRemove : Objects → ObjectHandle → Option Object × Objects
  | [], _ => (none, [])
  | (k, v) :: rest, h =>
    if k = h then (some v, rest)
    else
      let r := storeRemove rest h
      (r.1, (k, v) :: r.2)

/-- `Objects::default`: the freshly constructed store, holding exactly the
factory-default authentication key. -/
def Objects.default : Objects :=
  let authentication_key_handle :=
    ObjectHandle.new DEFAULT_AUTHENTICATION_KEY_ID ObjectType.AuthenticationKey
  let authentication_key_info : ObjectInfo :=
    { object_id := DEFAULT_AUTHENTICATION_KEY_ID
      object_type := ObjectType.AuthenticationKey
      algorithm := Algorithm.Auth AuthenticationAlg.YUBICO_AES
      capabilities := Capability.all
      delegated_capabilities := Capability.all
      domains := Domain.all
      length := AUTHENTICATION_KEY_SIZE
      sequence := 1
      origin := ObjectOrigin.Imported
      label := DEFAULT_AUTHENTICATION_KEY_LABEL }
  let authentication_key_payload : Payload :=
    ⟨Algorithm.Auth AuthenticationAlg.YUBICO_AES, List.replicate AUTHENTICATION_KEY_SIZE 0⟩
  [(authentication_key_handle,
    { object_info := authentication_key_info, payload := authentication_key_payload })]

/-- `Objects::get`: look up an object by id and type. -/
def Objects.get (s : Objects) (object_id : ObjectId) (object_type : ObjectType) :
    Option Object :=
  storeGet s (ObjectHandle.new object_id object_type)

/-- `Objects::generate`: build a fresh payload for the algorithm, record
metadata with origin Generated and sequence 1, and insert under the derived
handle; `assert!(insert(..).is_none())` aborts when the handle is occupied. -/
def Objects.generate (s : Objects) (object_id : ObjectId) (object_type : ObjectType)
    (algorithm : Algorithm) (label : ObjectLabel) (capabilities : Capability)
    (delegated_capabilities : Capability) (domains : Domain) : MRes Unit × Objects :=
  let payload := Payload.generate algorithm
  let length := payload.len
  let object_info : ObjectInfo :=
    { object_id, object_type, algorithm, capabilities, delegated_capabilities,
      domains, length, sequence := 1, origin := ObjectOrigin.Generated, label }
  let handle := ObjectHandle.new object_id object_type
  let object : Object := { object_info, payload }
  let r := storeInsert s handle object
  (match r.1 with
   | none => MRes.ok ()
   | some _ => MRes.panic, r.2)

/-- `Objects::put`: like generate but the payload comes from caller-supplied
bytes and the origin is Imported; same duplicate-handle abort. -/
def Objects.put (s : Objects) (object_id : ObjectId) (object_type : ObjectType)
    (algorithm : Algorithm) (label : ObjectLabel) (capabilities : Capability)
    (delegated_capabilities : Capability) (domains : Domain) (data : List Nat) :
    MRes Unit × Objects :=
  let payload := Payload.new algorithm data
  let length := payload.len
  let object_info : ObjectInfo :=
    { object_id, object_type, algorithm, capabilities, delegated_capabilities,
      domains, length, sequence := 1, origin := ObjectOrigin.Imported, label }
  let handle := ObjectHandle.new object_id object_type
  let object : Object := { object_info, payload }
  let r := storeInsert s handle object
  (match r.1 with
   | none => MRes.ok ()
   | some _ => MRes.panic, r.2)

/-- `Objects::remove`: delete and return the object if present. -/
def Objects.remove (s : Objects) (object_id : ObjectId) (object_type : ObjectType) :
    Option Object × Objects :=
  storeRemove s (ObjectHandle.new object_id object_type)

/-- The origin promotion performed by `Objects::wrap` on the cloned metadata
(the match on `object_info.origin` in the source): Generated and Imported are
promoted to their wrapped forms, already-wrapped origins are left unchanged. -/
def originPromote : ObjectOrigin → ObjectOrigin
  | .Generated => .WrappedGenerated
  | .Imported => .WrappedImported
  | .WrappedGenerated => .WrappedGenerated
  | .WrappedImported => .WrappedImported

/-- `Objects::wrap`: serialize an object under a stored wrap key as
authenticated ciphertext.  Resolves the wrap key (error if absent), selects
the AEAD cipher from its declared wrap algorithm (abort if the algorithm is
not of the wrap family, error if it is an unsupported wrap identifier, abort
if the key bytes have the wrong length), resolves the target (error if
absent), checks the export-under-wrap capability (error if missing), clones
and promotes the metadata, serializes the envelope, and seals it under the
first 12 bytes of the caller nonce (abort if the nonce is shorter). -/
def Objects.wrap (s : Objects) (wrap_key_id : ObjectId) (object_id : ObjectId)
    (object_type : ObjectType) (wrap_nonce : WrapNonce) : MRes Ciphertext × Objects :=
  (match s.get wrap_key_id ObjectType.WrapKey with
   | none => MRes.err "no such wrap key"
   | some wrap_key =>
     match wrap_key.algorithm.wrap with
     | none => MRes.panic
     | some walg =>
       let keyRes : MRes (List Nat) :=
         match walg with
         | WrapAlg.AES128_CCM =>
           match mkAeadKey 16 wrap_key.payload.data with
           | some k => MRes.ok k
           | none => MRes.panic
         | WrapAlg.AES256_CCM =>
           match mkAeadKey 32 wrap_key.payload.data with
           | some k => MRes.ok k
           | none => MRes.panic
         | _ => MRes.err "unsupported wrap key algorithm"
       match keyRes with
       | MRes.panic => MRes.panic
       | MRes.err m => MRes.err m
       | MRes.ok sealing_key =>
         match s.get object_id object_type with
         | none => MRes.err "no such object"
         | some object_to_wrap =>
           if ¬ (object_to_wrap.object_info.capabilities.contains
                   Capability.EXPORTABLE_UNDER_WRAP) then
             MRes.err "object does not have EXPORT_UNDER_WRAP capability"
           else
             let object_info :=
               { object_to_wrap.object_info with
                 origin := originPromote object_to_wrap.object_info.origin }
             let wrapped_object :=
               serialize { object_info, data := object_to_wrap.payload.data }
             if wrap_nonce.bytes.length < 12 then MRes.panic
             else
               let nonce := wrap_nonce.bytes.take 12
               MRes.ok (sealInPlace sealing_key nonce wrapped_object), s)

/-- `Objects::unwrap`: open authenticated ciphertext under a stored wrap key
and insert the recovered object.  Resolves the wrap key and cipher exactly as
wrap does, opens the ciphertext under the first 12 bytes of the nonce (error
on decryption failure), deserializes the recovered plaintext (abort on
malformed encoding, the source unwraps the codec result), rebuilds the
payload, and inserts under the handle derived from the envelope metadata
(abort when that handle is occupied). -/
def Objects.unwrap (s : Objects) (wrap_key_id : ObjectId) (wrap_nonce : WrapNonce)
    (ciphertext : Ciphertext) : MRes ObjectHandle × Objects :=
  match
    (match s.get wrap_key_id ObjectType.WrapKey with
     | none => MRes.err "no such wrap key"
     | some k =>
       match k.algorithm.wrap with
       | none => MRes.panic
       | some walg =>
         match walg with
         | WrapAlg.AES128_CCM =>
           match mkAeadKey 16 k.payload.data with
           | some kb => MRes.ok kb
           | none => MRes.panic
         | WrapAlg.AES256_CCM =>
           match mkAeadKey 32 k.payload.data with
           | some kb => MRes.ok kb
           | none => MRes.panic
         | _ => MRes.err "unsupported wrap key algorithm" : MRes (List Nat))
  with
  | MRes.panic => (MRes.panic, s)
  | MRes.err m => (MRes.err m, s)
  | MRes.ok opening_key =>
    if wrap_nonce.bytes.length < 12 then (MRes.panic, s)
    else
      let nonce := wrap_nonce.bytes.take 12
      match openInPlace opening_key nonce ciphertext with
      | none => (MRes.err "error decrypting wrapped object", s)
      | some plaintext =>
        match deserialize plaintext with
        | none => (MRes.panic, s)
        | some unwrapped_object =>
          let payload :=
            Payload.new unwrapped_object.object_info.algorithm unwrapped_object.data
          let object_key :=
            ObjectHandle.new unwrapped_object.object_info.object_id
              unwrapped_object.object_info.object_type
          let object : Object := { object_info := unwrapped_object.object_info, payload }
          let r := storeInsert s object_key object
          (match r.1 with
           | none => MRes.ok object_key
           | some _ => MRes.panic, r.2)

end MockHsm

namespace MockHsm

/-! ### Concrete scenario stores used by counterexamples and witnesses -/

/-- A 13-byte all-zero caller nonce. -/
def zeroNonce : WrapNonce := ⟨List.replicate 13 0⟩

/-- The default store extended with a 256-bit wrap key at id 10. -/
def wkStore : Objects :=
  (Objects.default.generate 10 ObjectType.WrapKey (Algorithm.Wrap WrapAlg.AES256_CCM)
    "test wrap key" Capability.all Capability.all Domain.all).2

/-- wkStore extended with an exportable opaque object at id 20. -/
def exStore : Objects :=
  (wkStore.generate 20 ObjectType.OpaqueObj Algorithm.OpaqueAlg
    "exportable data" Capability.all Capability.all Domain.all).2

/-- The ciphertext produced by wrapping object 20 of exStore under wrap key 10
with the zero nonce. -/
def exCiphertext : Ciphertext :=
  Ciphertext.sealed (List.replicate 32 0) (List.replicate 12 0)
    (Buf.encoded
      { object_info :=
          { object_id := 20
            object_type := ObjectType.OpaqueObj
            algorithm := Algorithm.OpaqueAlg
            capabilities := Capability.all
            delegated_capabilities := Capability.all
            domains := Domain.all
            length := 0
            sequence := 1
            origin := ObjectOrigin.WrappedGenerated
            label := "exportable data" }
        data := [] })

/-! ### Claim theorems -/

/-- C5: a freshly constructed store contains exactly one object — the default
authentication key at the fixed well-known id, of type AuthenticationKey, with
full capability bits, full delegated-capability bits, full domain bits, origin
Imported, and sequence 1. -/
theorem C5_bootstrap_invariant :
    ∃ o : Object,
      Objects.default =
        [(ObjectHandle.new DEFAULT_AUTHENTICATION_KEY_ID ObjectType.AuthenticationKey, o)] ∧
      o.object_info.object_id = DEFAULT_AUTHENTICATION_KEY_ID ∧
      o.object_info.object_type = ObjectType.AuthenticationKey ∧
      o.object_info.capabilities = Capability.all ∧
      o.object_info.delegated_capabilities = Capability.all ∧
      o.object_info.domains = Domain.all ∧
      o.object_info.origin = ObjectOrigin.Imported ∧
      o.object_info.sequence = 1 :=
  ⟨_, rfl, rfl, rfl, rfl, rfl, rfl, rfl, rfl⟩

/-- C6: the origin promotion applied by wrap to the cloned metadata sends
Generated to WrappedGenerated and Imported to WrappedImported, leaves the two
wrapped origins unchanged, and is idempotent. -/
theorem C6_origin_promotion_monotone_idempotent :
    originPromote ObjectOrigin.Generated = ObjectOrigin.WrappedGenerated ∧
    originPromote ObjectOrigin.Imported = ObjectOrigin.WrappedImported ∧
    originPromote ObjectOrigin.WrappedGenerated = ObjectOrigin.WrappedGenerated ∧
    originPromote ObjectOrigin.WrappedImported = ObjectOrigin.WrappedImported ∧
    ∀ o : ObjectOrigin, originPromote (originPromote o) = originPromote o := by
  refine ⟨rfl, rfl, rfl, rfl, fun o => ?_⟩
  cases o <;> rfl

/-- C2 (code bug): generate and put on an already-occupied handle abort the
process (the failed assert on the insert result) instead of returning the
recoverable duplicate-handle error the specification requires. -/
theorem C2_duplicate_insert_aborts :
    (Objects.default.generate DEFAULT_AUTHENTICATION_KEY_ID ObjectType.AuthenticationKey
      (Algorithm.Auth AuthenticationAlg.YUBICO_AES) "dup" Capability.all Capability.all
      Domain.all).1 = MRes.panic ∧
    (Objects.default.put DEFAULT_AUTHENTICATION_KEY_ID ObjectType.AuthenticationKey
      (Algorithm.Auth AuthenticationAlg.YUBICO_AES) "dup" Capability.all Capability.all
      Domain.all (List.replicate 32 0)).1 = MRes.panic := by
  decide

/-- C9 (code bug): when AEAD opening succeeds but the recovered plaintext is
not a valid WrappedObject encoding, unwrap aborts (the source unwraps the
deserialize result) instead of returning the recoverable decode error the
specification requires. -/
theorem C9_malformed_envelope_aborts :
    openInPlace (List.replicate 32 0) (List.replicate 12 0)
        (Ciphertext.sealed (List.replicate 32 0) (List.replicate 12 0) (Buf.raw [0])) =
      some (Buf.raw [0]) ∧
    deserialize (Buf.raw [0]) = none ∧
    (wkStore.unwrap 10 zeroNonce
        (Ciphertext.sealed (List.replicate 32 0) (List.replicate 12 0) (Buf.raw [0]))).1 =
      MRes.panic := by
  decide

/-- C1 (counterexample): on a store that holds the wrap key at id 10 and an
exportable object at id 20, wrap succeeds, but unwrapping that very ciphertext
in the same store does not succeed — it aborts on the duplicate handle, so the
round-trip as claimed fails. -/
theorem C1_roundtrip_counterexample :
    (exStore.wrap 10 20 ObjectType.OpaqueObj zeroNonce).1 = MRes.ok exCiphertext ∧
    (exStore.unwrap 10 zeroNonce exCiphertext).1 = MRes.panic := by
  decide

end MockHsm

namespace MockHsm

/-! ### Helper lemmas about the store operations -/

/-- Wrap performs no map mutation: the store component of its result is the
input store, in every branch (success, error or abort). -/
theorem wrap_preserves_store (s : Objects) (wrap_key_id object_id : ObjectId)
    (object_type : ObjectType) (wrap_nonce : WrapNonce) :
    (s.wrap wrap_key_id object_id object_type wrap_nonce).2 = s :=
  rfl

/-- Every error return of unwrap happens before the insert, so it leaves the
store untouched. -/
theorem unwrap_err_preserves_store (s : Objects) (wrap_key_id : ObjectId)
    (wrap_nonce : WrapNonce) (ciphertext : Ciphertext) (m : String)
    (h : (s.unwrap wrap_key_id wrap_nonce ciphertext).1 = MRes.err m) :
    (s.unwrap wrap_key_id wrap_nonce ciphertext).2 = s := by
  simp only [Objects.unwrap] at h ⊢
  repeat' split at h
  all_goals repeat' split
  all_goals first | rfl | simp_all

/-- Inserting at a key the store does not hold appends the new binding. -/
theorem storeInsert_of_get_none (h : ObjectHandle) (o : Object) :
    ∀ t : Objects, storeGet t h = none → storeInsert t h o = (none, t ++ [(h, o)])
  | [], _ => rfl
  | (k, v) :: rest, hget => by
    by_cases hk : k = h
    · simp [storeGet, hk] at hget
    · have hrest : storeGet rest h = none := by
        simpa [storeGet, hk] using hget
      simp [storeInsert, hk, storeInsert_of_get_none h o rest hrest]

/-! ### Claim theorems, continued -/

/-- C3: whenever wrap or unwrap returns an error, the store after the call
equals the store before the call — no partial insert and no persisted
metadata mutation. -/
theorem C3_failure_atomicity (s : Objects) (wrap_key_id object_id : ObjectId)
    (object_type : ObjectType) (wrap_nonce : WrapNonce) (ciphertext : Ciphertext)
    (m : String) :
    ((s.wrap wrap_key_id object_id object_type wrap_nonce).1 = MRes.err m →
      (s.wrap wrap_key_id object_id object_type wrap_nonce).2 = s) ∧
    ((s.unwrap wrap_key_id wrap_nonce ciphertext).1 = MRes.err m →
      (s.unwrap wrap_key_id wrap_nonce ciphertext).2 = s) :=
  ⟨fun _ => wrap_preserves_store s wrap_key_id object_id object_type wrap_nonce,
   unwrap_err_preserves_store s wrap_key_id wrap_nonce ciphertext m⟩

/-- Witness for C3: on the fresh store, wrapping with an absent wrap key and
unwrapping garbage with an absent wrap key both leave the store unchanged. -/
theorem C3_failure_atomicity_witness :
    (Objects.default.wrap 99 1 ObjectType.OpaqueObj zeroNonce).2 = Objects.default ∧
    (Objects.default.unwrap 99 zeroNonce (Ciphertext.garbage [])).2 = Objects.default :=
  ⟨(C3_failure_atomicity Objects.default 99 1 ObjectType.OpaqueObj zeroNonce
      (Ciphertext.garbage []) "no such wrap key").1 (by decide),
   (C3_failure_atomicity Objects.default 99 1 ObjectType.OpaqueObj zeroNonce
      (Ciphertext.garbage []) "no such wrap key").2 (by decide)⟩

/-- C8: a successful wrap removes no object and leaves the stored source
object — in particular its origin field — unchanged; the promotion touches
only the cloned metadata placed in the envelope. -/
theorem C8_wrap_non_destructive (s : Objects) (wrap_key_id object_id : ObjectId)
    (object_type : ObjectType) (wrap_nonce : WrapNonce) (c : Ciphertext)
    ( _hok : (s.wrap wrap_key_id object_id object_type wrap_nonce).1 = MRes.ok c) :
    (s.wrap wrap_key_id object_id object_type wrap_nonce).2 = s ∧
    (s.wrap wrap_key_id object_id object_type wrap_nonce).2.get object_id object_type =
      s.get object_id object_type :=
  ⟨wrap_preserves_store s wrap_key_id object_id object_type wrap_nonce,
   by rw [wrap_preserves_store s wrap_key_id object_id object_type wrap_nonce]⟩

/-- Witness for C8: the concrete successful wrap of object 20 under wrap key
10 leaves the store, and the stored object, unchanged. -/
theorem C8_wrap_non_destructive_witness :
    (exStore.wrap 10 20 ObjectType.OpaqueObj zeroNonce).2 = exStore ∧
    (exStore.wrap 10 20 ObjectType.OpaqueObj zeroNonce).2.get 20 ObjectType.OpaqueObj =
      exStore.get 20 ObjectType.OpaqueObj :=
  C8_wrap_non_destructive exStore 10 20 ObjectType.OpaqueObj zeroNonce exCiphertext
    (by decide)

/-- A wrap key whose declared algorithm and key-byte length the sealing path
accepts: the 128-bit identifier with 16 key bytes or the 256-bit identifier
with 32 key bytes. -/
def validWrapKey (wk : Object) : Prop :=
  (wk.algorithm = Algorithm.Wrap WrapAlg.AES128_CCM ∧ wk.payload.data.length = 16) ∨
  (wk.algorithm = Algorithm.Wrap WrapAlg.AES256_CCM ∧ wk.payload.data.length = 32)

instance (wk : Object) : Decidable (validWrapKey wk) := by
  unfold validWrapKey
  infer_instance

/-- C4: when the wrap key resolves and is usable, a wrap call whose resolved
target lacks the export-under-wrap capability bit fails with the capability
error and produces no ciphertext. -/
theorem C4_capability_gating (s : Objects) (wrap_key_id object_id : ObjectId)
    (object_type : ObjectType) (wrap_nonce : WrapNonce) (wk o : Object)
    (hwk : s.get wrap_key_id ObjectType.WrapKey = some wk)
    (hv : validWrapKey wk)
    (ho : s.get object_id object_type = some o)
    (hcap : o.object_info.capabilities.contains Capability.EXPORTABLE_UNDER_WRAP = false) :
    (s.wrap wrap_key_id object_id object_type wrap_nonce).1 =
      MRes.err "object does not have EXPORT_UNDER_WRAP capability" ∧
    ∀ c : Ciphertext,
      (s.wrap wrap_key_id object_id object_type wrap_nonce).1 ≠ MRes.ok c := by
  have h1 : (s.wrap wrap_key_id object_id object_type wrap_nonce).1 =
      MRes.err "object does not have EXPORT_UNDER_WRAP capability" := by
    rcases hv with ⟨ha, hl⟩ | ⟨ha, hl⟩
    · have ha2 : wk.object_info.algorithm = Algorithm.Wrap WrapAlg.AES128_CCM := ha
      simp [Objects.wrap, hwk, Object.algorithm, Algorithm.wrap, mkAeadKey, ha2, hl, ho, hcap]
    · have ha2 : wk.object_info.algorithm = Algorithm.Wrap WrapAlg.AES256_CCM := ha
      simp [Objects.wrap, hwk, Object.algorithm, Algorithm.wrap, mkAeadKey, ha2, hl, ho, hcap]
  exact ⟨h1, fun c hc => by rw [h1] at hc; cases hc⟩

/-- The wrap key object stored at id 10 of wkStore. -/
def wk256 : Object :=
  { object_info :=
      { object_id := 10
        object_type := ObjectType.WrapKey
        algorithm := Algorithm.Wrap WrapAlg.AES256_CCM
        capabilities := Capability.all
        delegated_capabilities := Capability.all
        domains := Domain.all
        length := 32
        sequence := 1
        origin := ObjectOrigin.Generated
        label := "test wrap key" }
    payload := ⟨Algorithm.Wrap WrapAlg.AES256_CCM, List.replicate 32 0⟩ }

/-- wkStore extended with an object at id 30 that has an empty capability
set, hence no export-under-wrap permission. -/
def ncStore : Objects :=
  (wkStore.generate 30 ObjectType.OpaqueObj Algorithm.OpaqueAlg "not exportable"
    ⟨0⟩ ⟨0⟩ Domain.all).2

/-- The non-exportable object stored at id 30 of ncStore. -/
def nc30 : Object :=
  { object_info :=
      { object_id := 30
        object_type := ObjectType.OpaqueObj
        algorithm := Algorithm.OpaqueAlg
        capabilities := ⟨0⟩
        delegated_capabilities := ⟨0⟩
        domains := Domain.all
        length := 0
        sequence := 1
        origin := ObjectOrigin.Generated
        label := "not exportable" }
    payload := ⟨Algorithm.OpaqueAlg, []⟩ }

/-- Witness for C4: wrapping the capability-less object 30 under wrap key 10
yields exactly the capability error. -/
theorem C4_capability_gating_witness :
    (ncStore.wrap 10 30 ObjectType.OpaqueObj zeroNonce).1 =
      MRes.err "object does not have EXPORT_UNDER_WRAP capability" :=
  (C4_capability_gating ncStore 10 30 ObjectType.OpaqueObj zeroNonce wk256 nc30
    (by decide) (by decide) (by decide) (by decide)).1

/-- The default store extended, via put, with a WrapKey-typed object whose
declared algorithm is of the authentication family, not the wrap family. -/
def badAlgStore : Objects :=
  (Objects.default.put 7 ObjectType.WrapKey (Algorithm.Auth AuthenticationAlg.YUBICO_AES)
    "wrap key with non wrap algorithm" Capability.all Capability.all Domain.all
    (List.replicate 32 0)).2

/-- C7 (counterexample): a resolved wrap key declaring an algorithm outside
the supported set that is not of the wrap family makes both wrap and unwrap
abort (the source unwraps the Option returned by the algorithm projection)
instead of failing with the unsupported-algorithm error the claim states. -/
theorem C7_algorithm_gating_counterexample :
    (badAlgStore.get 7 ObjectType.WrapKey).map Object.algorithm =
      some (Algorithm.Auth AuthenticationAlg.YUBICO_AES) ∧
    (badAlgStore.wrap 7 1 ObjectType.AuthenticationKey zeroNonce).1 = MRes.panic ∧
    (badAlgStore.unwrap 7 zeroNonce (Ciphertext.garbage [])).1 = MRes.panic := by
  decide

/-- C7 (amended): when the resolved wrap key declares a wrap-family algorithm
outside the supported pair — the 192-bit identifier — both wrap and unwrap
fail with the unsupported-algorithm error, before any sealing or opening, and
leave the store unchanged. -/
theorem C7_amended_algorithm_gating (s : Objects) (wrap_key_id object_id : ObjectId)
    (object_type : ObjectType) (wrap_nonce : WrapNonce) (ciphertext : Ciphertext)
    (wk : Object)
    (hwk : s.get wrap_key_id ObjectType.WrapKey = some wk)
    (ha : wk.algorithm = Algorithm.Wrap WrapAlg.AES192_CCM) :
    (s.wrap wrap_key_id object_id object_type wrap_nonce).1 =
      MRes.err "unsupported wrap key algorithm" ∧
    (s.wrap wrap_key_id object_id object_type wrap_nonce).2 = s ∧
    (s.unwrap wrap_key_id wrap_nonce ciphertext).1 =
      MRes.err "unsupported wrap key algorithm" ∧
    (s.unwrap wrap_key_id wrap_nonce ciphertext).2 = s := by
  have ha2 : wk.object_info.algorithm = Algorithm.Wrap WrapAlg.AES192_CCM := ha
  refine ⟨?_, wrap_preserves_store s wrap_key_id object_id object_type wrap_nonce, ?_, ?_⟩
  · simp [Objects.wrap, hwk, Object.algorithm, Algorithm.wrap, ha2]
  · simp [Objects.unwrap, hwk, Object.algorithm, Algorithm.wrap, ha2]
  · simp [Objects.unwrap, hwk, Object.algorithm, Algorithm.wrap, ha2]

/-- The default store extended with a 192-bit wrap key at id 11. -/
def a192Store : Objects :=
  (Objects.default.generate 11 ObjectType.WrapKey (Algorithm.Wrap WrapAlg.AES192_CCM)
    "aes192 wrap key" Capability.all Capability.all Domain.all).2

/-- The 192-bit wrap key object stored at id 11 of a192Store. -/
def wk192 : Object :=
  { object_info :=
      { object_id := 11
        object_type := ObjectType.WrapKey
        algorithm := Algorithm.Wrap WrapAlg.AES192_CCM
        capabilities := Capability.all
        delegated_capabilities := Capability.all
        domains := Domain.all
        length := 24
        sequence := 1
        origin := ObjectOrigin.Generated
        label := "aes192 wrap key" }
    payload := ⟨Algorithm.Wrap WrapAlg.AES192_CCM, List.replicate 24 0⟩ }

/-- Witness for the amended C7: with the concrete 192-bit wrap key both wrap
and unwrap return the unsupported-algorithm error and leave the store
unchanged. -/
theorem C7_amended_algorithm_gating_witness :
    (a192Store.wrap 11 1 ObjectType.AuthenticationKey zeroNonce).1 =
      MRes.err "unsupported wrap key algorithm" ∧
    (a192Store.wrap 11 1 ObjectType.AuthenticationKey zeroNonce).2 = a192Store ∧
    (a192Store.unwrap 11 zeroNonce (Ciphertext.garbage [])).1 =
      MRes.err "unsupported wrap key algorithm" ∧
    (a192Store.unwrap 11 zeroNonce (Ciphertext.garbage [])).2 = a192Store :=
  C7_amended_algorithm_gating a192Store 11 1 ObjectType.AuthenticationKey zeroNonce
    (Ciphertext.garbage []) wk192 (by decide) (by decide)

end MockHsm

namespace MockHsm

/-- The ciphertext a successful wrap produces for target object o under wrap
key wk: the envelope of the promoted metadata and the payload bytes, sealed
under the wrap-key bytes and the first 12 bytes of the caller nonce. -/
def wrapResultCiphertext (wk o : Object) (wrap_nonce : WrapNonce) : Ciphertext :=
  Ciphertext.sealed wk.payload.data (wrap_nonce.bytes.take 12)
    (Buf.encoded
      { object_info := { o.object_info with origin := originPromote o.object_info.origin }
        data := o.payload.data })

/-- C1 (amended): for a store holding a usable wrap key and an exportable
object, wrap succeeds, and unwrapping the produced ciphertext succeeds in any
store that holds the same wrap key and in which the target handle is
unoccupied (for instance the original store after the object is removed),
yielding an object whose payload bytes equal the original bytes and whose
metadata equals the original metadata except for the origin promotion. -/
theorem C1_amended_roundtrip (s t : Objects) (wrap_key_id object_id : ObjectId)
    (object_type : ObjectType) (wrap_nonce : WrapNonce) (wk o : Object)
    (hwk : s.get wrap_key_id ObjectType.WrapKey = some wk)
    (hv : validWrapKey wk)
    (ho : s.get object_id object_type = some o)
    (hid : o.object_info.object_id = object_id)
    (hty : o.object_info.object_type = object_type)
    (hcap : o.object_info.capabilities.contains Capability.EXPORTABLE_UNDER_WRAP = true)
    (hn : 12 ≤ wrap_nonce.bytes.length)
    (htwk : t.get wrap_key_id ObjectType.WrapKey = some wk)
    (htfree : storeGet t (ObjectHandle.new object_id object_type) = none) :
    (s.wrap wrap_key_id object_id object_type wrap_nonce).1 =
      MRes.ok (wrapResultCiphertext wk o wrap_nonce) ∧
    t.unwrap wrap_key_id wrap_nonce (wrapResultCiphertext wk o wrap_nonce) =
      (MRes.ok (ObjectHandle.new object_id object_type),
       t ++ [(ObjectHandle.new object_id object_type,
              { object_info :=
                  { o.object_info with origin := originPromote o.object_info.origin }
                payload := Payload.new o.object_info.algorithm o.payload.data })]) := by
  have hn2 : ¬ (wrap_nonce.bytes.length < 12) := Nat.not_lt.mpr hn
  constructor
  · rcases hv with ⟨ha, hl⟩ | ⟨ha, hl⟩
    · have ha2 : wk.object_info.algorithm = Algorithm.Wrap WrapAlg.AES128_CCM := ha
      simp [Objects.wrap, hwk, Object.algorithm, Algorithm.wrap, mkAeadKey, ha2, hl, ho,
        hcap, hn2, wrapResultCiphertext, serialize, sealInPlace]
    · have ha2 : wk.object_info.algorithm = Algorithm.Wrap WrapAlg.AES256_CCM := ha
      simp [Objects.wrap, hwk, Object.algorithm, Algorithm.wrap, mkAeadKey, ha2, hl, ho,
        hcap, hn2, wrapResultCiphertext, serialize, sealInPlace]
  · rcases hv with ⟨ha, hl⟩ | ⟨ha, hl⟩
    · have ha2 : wk.object_info.algorithm = Algorithm.Wrap WrapAlg.AES128_CCM := ha
      simp [Objects.unwrap, htwk, Object.algorithm, Algorithm.wrap, mkAeadKey, ha2, hl,
        hn2, wrapResultCiphertext, openInPlace, deserialize, Payload.new, hid, hty,
        storeInsert_of_get_none, htfree]
    · have ha2 : wk.object_info.algorithm = Algorithm.Wrap WrapAlg.AES256_CCM := ha
      simp [Objects.unwrap, htwk, Object.algorithm, Algorithm.wrap, mkAeadKey, ha2, hl,
        hn2, wrapResultCiphertext, openInPlace, deserialize, Payload.new, hid, hty,
        storeInsert_of_get_none, htfree]

/-- The exportable opaque object stored at id 20 of exStore. -/
def ex20 : Object :=
  { object_info :=
      { object_id := 20
        object_type := ObjectType.OpaqueObj
        algorithm := Algorithm.OpaqueAlg
        capabilities := Capability.all
        delegated_capabilities := Capability.all
        domains := Domain.all
        length := 0
        sequence := 1
        origin := ObjectOrigin.Generated
        label := "exportable data" }
    payload := ⟨Algorithm.OpaqueAlg, []⟩ }

/-- Witness for the amended C1: wrapping object 20 of exStore under wrap key
10 and unwrapping the result in wkStore (which holds the wrap key but not the
object) reproduces the object, origin promoted, payload bytes identical. -/
theorem C1_amended_roundtrip_witness :
    (exStore.wrap 10 20 ObjectType.OpaqueObj zeroNonce).1 =
      MRes.ok (wrapResultCiphertext wk256 ex20 zeroNonce) ∧
    wkStore.unwrap 10 zeroNonce (wrapResultCiphertext wk256 ex20 zeroNonce) =
      (MRes.ok (ObjectHandle.new 20 ObjectType.OpaqueObj),
       wkStore ++ [(ObjectHandle.new 20 ObjectType.OpaqueObj,
         { object_info :=
             { ex20.object_info with origin := originPromote ex20.object_info.origin }
           payload := Payload.new ex20.object_info.algorithm ex20.payload.data })]) :=
  C1_amended_roundtrip exStore wkStore 10 20 ObjectType.OpaqueObj zeroNonce wk256 ex20
    (by decide) (by decide) (by decide) (by decide) (by decide) (by decide) (by decide)
    (by decide) (by decide)

/-- The handle-consistency invariant: every map key equals the handle derived
from the id and type recorded in the metadata of the object stored under it. -/
def HandleConsistent (s : Objects) : Prop :=
  ∀ p ∈ s, p.1 = ObjectHandle.new p.2.object_info.object_id p.2.object_info.object_type

/-- Stores reachable from the freshly constructed store by any sequence of
generate, put, remove, wrap and unwrap calls. -/
inductive Reachable : Objects → Prop
  | dflt : Reachable Objects.default
  | gen (oid : ObjectId) (oty : ObjectType) (alg : Algorithm) (lbl : ObjectLabel)
      (caps dcaps : Capability) (doms : Domain) {s : Objects} :
      Reachable s → Reachable (s.generate oid oty alg lbl caps dcaps doms).2
  | putStep (oid : ObjectId) (oty : ObjectType) (alg : Algorithm) (lbl : ObjectLabel)
      (caps dcaps : Capability) (doms : Domain) (data : List Nat) {s : Objects} :
      Reachable s → Reachable (s.put oid oty alg lbl caps dcaps doms data).2
  | removeStep (oid : ObjectId) (oty : ObjectType) {s : Objects} :
      Reachable s → Reachable (s.remove oid oty).2
  | wrapStep (wkid oid : ObjectId) (oty : ObjectType) (n : WrapNonce) {s : Objects} :
      Reachable s → Reachable (s.wrap wkid oid oty n).2
  | unwrapStep (wkid : ObjectId) (n : WrapNonce) (ct : Ciphertext) {s : Objects} :
      Reachable s → Reachable (s.unwrap wkid n ct).2

/-- Insertion at a handle matching the metadata of the inserted object preserves
handle consistency. -/
theorem hc_insert (h : ObjectHandle) (o : Object)
    (ho : h = ObjectHandle.new o.object_info.object_id o.object_info.object_type) :
    ∀ s : Objects, HandleConsistent s → HandleConsistent (storeInsert s h o).2
  | [], _ => by
    intro p hp
    simp [storeInsert] at hp
    rw [hp]
    exact ho
  | (k, v) :: rest, hs => by
    intro p hp
    by_cases hk : k = h
    · simp [storeInsert, hk] at hp
      rcases hp with hp | hp
      · rw [hp]; exact ho
      · exact hs p (List.mem_cons_of_mem _ hp)
    · simp [storeInsert, hk] at hp
      rcases hp with hp | hp
      · rw [hp]; exact hs (k, v) (List.mem_cons_self _ _)
      · exact hc_insert h o ho rest (fun q hq => hs q (List.mem_cons_of_mem _ hq)) p hp

/-- Removal preserves handle consistency. -/
theorem hc_remove (h : ObjectHandle) :
    ∀ s : Objects, HandleConsistent s → HandleConsistent (storeRemove s h).2
  | [], _ => by
    intro p hp
    simp [storeRemove] at hp
  | (k, v) :: rest, hs => by
    intro p hp
    by_cases hk : k = h
    · simp [storeRemove, hk] at hp
      exact hs p (List.mem_cons_of_mem _ hp)
    · simp [storeRemove, hk] at hp
      rcases hp with hp | hp
      · rw [hp]; exact hs (k, v) (List.mem_cons_self _ _)
      · exact hc_remove h rest (fun q hq => hs q (List.mem_cons_of_mem _ hq)) p hp

/-- C10: in every store reachable from the default store by generate, put,
remove, wrap and unwrap calls, every map key equals the handle derived from
the id and type recorded in the metadata of the stored object. -/
theorem C10_handle_consistency (s : Objects) (hr : Reachable s) : HandleConsistent s := by
  induction hr with
  | dflt =>
    intro p hp
    simp [Objects.default] at hp
    rw [hp]
  | gen oid oty alg lbl caps dcaps doms hr ih =>
    exact hc_insert (ObjectHandle.new oid oty) _ rfl _ ih
  | putStep oid oty alg lbl caps dcaps doms data hr ih =>
    exact hc_insert (ObjectHandle.new oid oty) _ rfl _ ih
  | removeStep oid oty hr ih =>
    exact hc_remove (ObjectHandle.new oid oty) _ ih
  | wrapStep wkid oid oty n hr ih =>
    rw [wrap_preserves_store]
    exact ih
  | unwrapStep wkid n ct hr ih =>
    simp only [Objects.unwrap]
    repeat' split
    all_goals dsimp only
    all_goals first
      | exact ih
      | (apply hc_insert <;> first | rfl | exact ih)

/-- Witness for C10: the concrete two-generate store satisfies the
handle-consistency invariant. -/
theorem C10_handle_consistency_witness : HandleConsistent exStore :=
  C10_handle_consistency exStore
    (Reachable.gen 20 ObjectType.OpaqueObj Algorithm.OpaqueAlg "exportable data"
      Capability.all Capability.all Domain.all
      (Reachable.gen 10 ObjectType.WrapKey (Algorithm.Wrap WrapAlg.AES256_CCM)
        "test wrap key" Capability.all Capability.all Domain.all Reachable.dflt))

end MockHsm
